import Mathlib

/-!
Shallow embedding of the inventory application in `src/app.py`
(Flask + SQLAlchemy, single file).

The HTTP routing, HTML templating and binary renderers are external
collaborators; what is embedded here is the data model (the `Product` and
`Movement` SQLAlchemy models), the stock-adjustment handlers `product_add`
and `product_remove`, the registry handlers `product_new`, `product_edit`
and `product_delete`, the notifier `send_low_stock_email`, the `_get_bool`
form helper, and the status classification expressions of the listing
view, the report view and the CSV / PDF / XLSX exports.

Conventions:
* form values that the Python code reads with `request.form.get` arrive
  here as plain arguments (`Int` for already-parsed integers, and
  `Option String` where the presence or absence of the field matters,
  as for the `allow_negative` checkbox);
* environment variables read with `os.getenv` are a record of
  `Option String` fields, and Python truthiness of such a value is the
  `truthy` predicate below;
* the SMTP transport (`smtplib.SMTP`, `starttls`, `login`,
  `send_message`) is an external collaborator modelled by a single
  `transportOk : Bool` flag: `true` means the whole `with` block runs
  without raising, `false` means some call in it raises an exception;
* an uncaught Python exception is the `PyResult.exn` constructor.
-/

/-- Model `Product`, app.py lines 58-70.  `id` is the primary key, `sku`
carries a database-level unique constraint (line 60), `min_threshold`
carries the `threshold_non_negative` check constraint (line 69), and
`allow_negative` defaults to `True` (line 64).  Timestamps are omitted:
no claim mentions them. -/
structure Product where
  id : Nat
  sku : String
  name : String
  quantity : Int
  min_threshold : Int
  allow_negative : Bool
deriving Repr, DecidableEq

/-- Model `Movement`, app.py lines 73-80.  `product_id` is a
`nullable=False` foreign key to `product.id` (line 75); the
`Product.movements` backref (line 80) declares no delete cascade. -/
structure Movement where
  id : Nat
  product_id : Nat
  delta : Int
  note : String
deriving Repr, DecidableEq

/-- The persistent store: product table, movement table, and the next
movement primary key the database would assign. -/
structure DB where
  products : List Product
  movements : List Movement
  nextMovementId : Nat
deriving Repr, DecidableEq

/-- Lookup `Product.query.get_or_404(pid)`: the product with primary key `pid`,
when present. -/
def findProduct (d : DB) (pid : Nat) : Option Product :=
  d.products.find? (fun p => p.id = pid)

/-- Writing back a mutated product row under its primary key. -/
def updateProduct (d : DB) (p : Product) : DB :=
  { d with products := d.products.map (fun q => if q.id = p.id then p else q) }

/-! ## Status classification sites (claim C2)

Each definition below transcribes one occurrence of the status
comparison in app.py.  They are kept separate on purpose: the claim is
exactly that every site uses the same strict `<`. -/

/-- Listing view, app.py line 148:
`low = [p for p in products if p.quantity < p.min_threshold]`. -/
def indexLowList (products : List Product) : List Product :=
  products.filter (fun p => p.quantity < p.min_threshold)

/-- Report view, app.py line 281:
`low = [p for p in products if p.quantity < p.min_threshold]`. -/
def reportLowList (products : List Product) : List Product :=
  products.filter (fun p => p.quantity < p.min_threshold)

/-- CSV export, app.py line 304:
`status = "LOW" if p.quantity < p.min_threshold else "OK"`. -/
def csvStatus (p : Product) : String :=
  if p.quantity < p.min_threshold then "LOW" else "OK"

/-- PDF export, app.py line 370:
`status = "LOW" if p.quantity < p.min_threshold else "OK"`. -/
def pdfStatus (p : Product) : String :=
  if p.quantity < p.min_threshold then "LOW" else "OK"

/-- XLSX export, app.py line 436:
`status = "LOW" if p.quantity < p.min_threshold else "OK"`. -/
def xlsxStatus (p : Product) : String :=
  if p.quantity < p.min_threshold then "LOW" else "OK"

/-! ## Low-Stock Notifier (`send_low_stock_email`, app.py lines 87-119) -/

/-- The environment variables the notifier reads via `os.getenv`
(app.py lines 88-94): `none` means the variable is unset. -/
structure Env where
  SMTP_HOST : Option String
  SMTP_PORT : Option String
  SMTP_USERNAME : Option String
  SMTP_PASSWORD : Option String
  SMTP_USE_TLS : Option String
  ALERT_RECIPIENTS : Option String
  FROM_EMAIL : Option String
deriving Repr, DecidableEq

/-- Python truthiness of an `os.getenv` result: `None` and the empty
string are falsy, every other string is truthy. -/
def truthy : Option String → Bool
  | none => false
  | some s => s != ""

/-- Decimal value of a digit character (used to model Python `int`). -/
def digit? (c : Char) : Option Nat :=
  if c.isDigit then some (c.toNat - 48) else none

/-- Value of a non-empty all-digit character list, else `none`. -/
def natOfDigits (cs : List Char) : Option Nat :=
  if cs.isEmpty then none
  else cs.foldl (fun acc c =>
    match acc, digit? c with
    | some n, some d => some (n * 10 + d)
    | _, _ => none) (some 0)

/-- Python `int(s)` (app.py line 89): an optional leading minus sign
followed by decimal digits; anything else raises `ValueError`,
modelled as `none`. -/
def pyInt? (s : String) : Option Int :=
  match s.data with
  | [] => none
  | c :: cs =>
    if c = '-' then (natOfDigits cs).map (fun n => -(n : Int))
    else (natOfDigits (c :: cs)).map (fun n => (n : Int))

/-- Python `s.split(",")`: split at every comma, keeping empty pieces. -/
def splitOnComma : List Char → List (List Char)
  | [] => [[]]
  | c :: cs =>
    if c = ',' then [] :: splitOnComma cs
    else match splitOnComma cs with
      | piece :: rest => (c :: piece) :: rest
      | [] => [[c]]

/-- The whitespace characters Python `str.strip` removes (the common
ASCII ones suffice for the strings involved here). -/
def isSpace (c : Char) : Bool := c = ' ' || c = '\t' || c = '\n' || c = '\r'

/-- Python `s.strip()`: drop whitespace from both ends. -/
def pyStrip (cs : List Char) : List Char :=
  ((cs.dropWhile isSpace).reverse.dropWhile isSpace).reverse

/-- App.py line 93:
`[e.strip() for e in os.getenv("ALERT_RECIPIENTS", "").split(",") if e.strip()]`. -/
def splitRecipients (s : String) : List String :=
  ((splitOnComma s.data).map (fun e => String.mk (pyStrip e))).filter
    (fun e => e != "")

/-- Python `str.lower` on one ASCII character. -/
def pyLowerChar (c : Char) : Char :=
  if 'A' ≤ c ∧ c ≤ 'Z' then Char.ofNat (c.toNat + 32) else c

/-- Python `s.lower()` (ASCII; the accepted spellings are ASCII). -/
def pyLower (s : String) : String := String.mk (s.data.map pyLowerChar)

/-- Result of running a Python call: a value, or an uncaught exception
propagating to the caller. -/
inductive PyResult (α : Type) where
  | ok : α → PyResult α
  | exn : String → PyResult α
deriving Repr, DecidableEq

/-- App.py line 94: `from_email = os.getenv("FROM_EMAIL", user)` — the
username is the fallback when `FROM_EMAIL` is unset. -/
def smtpFromEmail (env : Env) : Option String :=
  match env.FROM_EMAIL with
  | some s => some s
  | none => env.SMTP_USERNAME

/-- The condition of app.py line 96,
`host and user and pwd and recipients and from_email`: every required
delivery setting is truthy (the recipient list truthiness is
non-emptiness). -/
def smtpConfigComplete (env : Env) : Bool :=
  truthy env.SMTP_HOST && truthy env.SMTP_USERNAME && truthy env.SMTP_PASSWORD
    && !(splitRecipients (env.ALERT_RECIPIENTS.getD "")).isEmpty
    && truthy (smtpFromEmail env)

/-- Notifier `send_low_stock_email(product)`, app.py lines 87-119.

* Line 89 parses `SMTP_PORT` with `int(...)` before anything else; a
  non-numeric value raises `ValueError`.
* Line 96: if any of host / user / password / recipients / from-address
  is falsy, the function logs a warning and returns `False` — it does
  not raise.
* Lines 113-117 (`with smtplib.SMTP(host, port) as s: ...`) carry no
  exception handler: `transportOk = false` means some transport call
  (connect, STARTTLS, login, send) raised, and that exception
  propagates.  `SMTP_USE_TLS` only selects behaviour inside the
  transport block and is absorbed into `transportOk`.
* On a successful send the function returns `True`.

The product argument only feeds the message text, which is rendering. -/
def send_low_stock_email (env : Env) (transportOk : Bool) (_product : Product) :
    PyResult Bool :=
  match pyInt? (env.SMTP_PORT.getD "587") with
  | none => .exn "ValueError"
  | some _ =>
    if !(smtpConfigComplete env) then
      .ok false
    else if transportOk then
      .ok true
    else
      .exn "SMTPException"

/-! ## Form helper -/

/-- Helper `_get_bool(name, default)`, app.py lines 126-130: when the form
field is absent the default is returned; otherwise the value is lowered
and compared against the four accepted truthy spellings. -/
def _get_bool (val : Option String) (dflt : Bool) : Bool :=
  match val with
  | none => dflt
  | some v => (["1", "true", "on", "yes"] : List String).contains (pyLower v)

/-! ## Stock adjustment: `product_add` (app.py lines 224-240) -/

/-- What the add handler reports back (flash category + redirect). -/
inductive AddOutcome where
  | invalidAmount
  | added
deriving Repr, DecidableEq

structure AddResult where
  db : DB
  outcome : AddOutcome
  /-- Number of `send_low_stock_email` invocations performed by the
  handler.  `product_add` contains no call to it (lines 224-240), so
  this is structurally zero. -/
  notifyCalls : Nat
deriving Repr, DecidableEq

/-- Handler `product_add(pid)`, app.py lines 224-240.  `amount` arrives already
parsed from the form (`int(request.form.get("amount", "0"))`).
A missing product is the `get_or_404` path (`none`). -/
def product_add (d : DB) (pid : Nat) (amount : Int) (note : String) :
    Option AddResult :=
  match findProduct d pid with
  | none => none
  | some p =>
    if amount ≤ 0 then
      some ⟨d, .invalidAmount, 0⟩
    else
      let p2 := { p with quantity := p.quantity + amount }
      let m : Movement := ⟨d.nextMovementId, p.id, amount, note⟩
      some ⟨{ products := (updateProduct d p2).products
              movements := d.movements ++ [m]
              nextMovementId := d.nextMovementId + 1 }, .added, 0⟩

/-! ## Stock adjustment: `product_remove` (app.py lines 243-270) -/

/-- What the remove handler reports back.  The first two are the
validation rejections (flash + redirect, no state change); the next
three are the post-commit flash messages of lines 262-268;
`notifierExn` is an uncaught exception escaping from
`send_low_stock_email` after the commit. -/
inductive RemoveOutcome where
  | invalidAmount
  | negativeStockDenied
  | lowEmailSent
  | lowEmailNotSent
  | removedOk
  | notifierExn : String → RemoveOutcome
deriving Repr, DecidableEq

/-- Observable steps of the remove handler, for ordering statements:
`commit` is `db.session.commit()` (line 260), `notifyAttempt` is the
call to `send_low_stock_email` (line 263). -/
inductive Event where
  | commit
  | notifyAttempt
deriving Repr, DecidableEq

structure RemoveResult where
  db : DB
  outcome : RemoveOutcome
  /-- Number of `send_low_stock_email` invocations performed. -/
  notifyCalls : Nat
  /-- The ordered trace of commit / notification steps performed. -/
  events : List Event
deriving Repr, DecidableEq

/-- Handler `product_remove(pid)`, app.py lines 243-270, transcribed in order:
reject `amount <= 0` (line 249); reject
`not p.allow_negative and amount > p.quantity` (line 253); then mutate
quantity, append the movement, commit (lines 257-260); then, when the
new quantity is strictly below the threshold, call
`send_low_stock_email` once (lines 262-266) — `True` flashes the
"sent" info message, `False` the "NOT sent" warning, and an exception
propagates out of the handler; otherwise flash the plain success
message (line 268). -/
def product_remove (d : DB) (pid : Nat) (amount : Int) (note : String)
    (env : Env) (transportOk : Bool) : Option RemoveResult :=
  match findProduct d pid with
  | none => none
  | some p =>
    if amount ≤ 0 then
      some ⟨d, .invalidAmount, 0, []⟩
    else if p.allow_negative = false ∧ amount > p.quantity then
      some ⟨d, .negativeStockDenied, 0, []⟩
    else
      let p2 := { p with quantity := p.quantity - amount }
      let m : Movement := ⟨d.nextMovementId, p.id, -amount, note⟩
      let d2 : DB :=
        { products := (updateProduct d p2).products
          movements := d.movements ++ [m]
          nextMovementId := d.nextMovementId + 1 }
      if p2.quantity < p2.min_threshold then
        match send_low_stock_email env transportOk p2 with
        | .ok true => some ⟨d2, .lowEmailSent, 1, [.commit, .notifyAttempt]⟩
        | .ok false => some ⟨d2, .lowEmailNotSent, 1, [.commit, .notifyAttempt]⟩
        | .exn e => some ⟨d2, .notifierExn e, 1, [.commit, .notifyAttempt]⟩
      else
        some ⟨d2, .removedOk, 0, [.commit]⟩

/-! ## Registry: `product_new`, `product_edit`, `product_delete`
(app.py lines 163-217) -/

/-- Outcomes of the registry handlers.  `dupSku` is the graceful
application-level rejection of `product_new` (flash "SKU already
exists." + redirect, lines 172-174); `integrityError` is an uncaught
database `IntegrityError` raised by `db.session.commit()` when a
constraint of the schema is violated — it is a crash of the request,
not a flash message; `notFound` is the `get_or_404` path. -/
inductive RegOutcome where
  | dupSku
  | created
  | updated
  | deleted
  | integrityError
  | notFound
deriving Repr, DecidableEq

/-- Whether the product table holds two rows with the same `sku`
(violating the `unique=True` constraint of app.py line 60). -/
def skuDup : List Product → Bool
  | [] => false
  | p :: rest => rest.any (fun q => q.sku == p.sku) || skuDup rest

/-- Handler `product_new` POST path, app.py lines 165-187: an explicit
`Product.query.filter_by(sku=sku).first()` check rejects an existing
SKU before any insert (lines 172-174); otherwise the product is
inserted with `min_threshold=max(0, thr)` (line 180) and
`allow_negative=_get_bool("allow_negative", True)` (line 170).
`allow_negative_form` is the raw form field, `none` when omitted. -/
def product_new (d : DB) (nextPid : Nat) (sku name : String) (qty thr : Int)
    (allow_negative_form : Option String) : DB × RegOutcome :=
  let allow_neg := _get_bool allow_negative_form true
  if d.products.any (fun p => p.sku == sku) then
    (d, .dupSku)
  else
    ({ d with products :=
        d.products ++ [⟨nextPid, sku, name, qty, max 0 thr, allow_neg⟩] },
     .created)

/-- Handler `product_edit` POST path, app.py lines 192-207.  The handler
assigns `sku`, `name`, `quantity`, `min_threshold` (clamped with
`max(0, ...)`, line 200) and `allow_negative` directly to the row and
calls `db.session.commit()` — it performs NO application-level SKU
check.  The commit is subject to the database-level `unique=True`
constraint on `product.sku` (line 60): when the new row set would hold
a duplicate SKU the commit raises an uncaught `IntegrityError` and the
stored table is unchanged. -/
def product_edit (d : DB) (pid : Nat) (sku name : String) (qty thr : Int)
    (allow_negative_form : Option String) : DB × RegOutcome :=
  match findProduct d pid with
  | none => (d, .notFound)
  | some p =>
    let p2 : Product :=
      { p with sku := sku, name := name, quantity := qty
               min_threshold := max 0 thr
               allow_negative := _get_bool allow_negative_form p.allow_negative }
    let d2 := updateProduct d p2
    if skuDup d2.products then (d, .integrityError) else (d2, .updated)

/-- Handler `product_delete`, app.py lines 210-217: `db.session.delete(p)` then
commit.  The `Product.movements` relationship (line 80) declares no
delete cascade, so on flush SQLAlchemy de-associates the product's
movements by updating their `product_id` to NULL; `movement.product_id`
is `nullable=False` (line 75), so that UPDATE violates the NOT NULL
constraint and the commit raises an uncaught `IntegrityError` whenever
the product has at least one movement, leaving the database unchanged.
A product with no movements is deleted normally. -/
def product_delete (d : DB) (pid : Nat) : DB × RegOutcome :=
  match findProduct d pid with
  | none => (d, .notFound)
  | some p =>
    if d.movements.any (fun m => m.product_id == p.id) then
      (d, .integrityError)
    else
      ({ d with products := d.products.filter (fun q => q.id != pid) }, .deleted)

/-! ## Concrete sample data (for closed evaluations) -/

/-- A fully configured SMTP environment. -/
def fullEnv : Env :=
  ⟨some "smtp.example.com", some "587", some "user", some "hunter2",
   some "1", some "ops@example.com", some "noreply@example.com"⟩

/-- An entirely unset SMTP environment (fresh deployment, no `.env`). -/
def emptyEnv : Env :=
  ⟨none, none, none, none, none, none, none⟩

/-- Two products, no movements yet.  Product 1 is the spec scenario
product `{sku: "A1", quantity: 5, min_threshold: 3}` with
`allow_negative` off; product 2 allows negative stock. -/
def sampleDB : DB :=
  ⟨[⟨1, "A1", "Widget", 5, 3, false⟩, ⟨2, "B2", "Gadget", 10, 3, true⟩], [], 1⟩

/-- One product with one movement on record. -/
def dbWithMovement : DB :=
  ⟨[⟨1, "A1", "Widget", 5, 3, true⟩], [⟨1, 1, 5, "initial"⟩], 2⟩

/-! ## Helper lemmas about row lookup after a row update -/

theorem find_update_of_find (l : List Product) (pid : Nat) (p p2 : Product)
    (hfind : l.find? (fun q => q.id = pid) = some p) (hid : p2.id = p.id) :
    (l.map (fun q => if q.id = p2.id then p2 else q)).find?
      (fun q => q.id = pid) = some p2 := by
  have hpid : p.id = pid := by
    have := List.find?_some hfind
    exact of_decide_eq_true this
  induction l with
  | nil => cases hfind
  | cons q l ih =>
    by_cases hq : q.id = pid
    · rw [List.find?_cons_of_pos _ (by simpa using hq)] at hfind
      have hqp : q = p := by injection hfind
      have hq2 : q.id = p2.id := by rw [hqp, hid]
      simp only [List.map_cons, if_pos hq2]
      exact List.find?_cons_of_pos _ (by simp [hid, hpid])
    · rw [List.find?_cons_of_neg _ (by simpa using hq)] at hfind
      have hq2 : ¬ q.id = p2.id := by rw [hid, hpid]; exact hq
      simp only [List.map_cons, if_neg hq2]
      rw [List.find?_cons_of_neg _ (by simpa using hq)]
      exact ih hfind

theorem findProduct_updateProduct (d : DB) (pid : Nat) (p p2 : Product)
    (hfind : findProduct d pid = some p) (hid : p2.id = p.id) :
    findProduct (updateProduct d p2) pid = some p2 :=
  find_update_of_find d.products pid p p2 hfind hid

/-! ## Helper lemmas about `product_remove` -/

/-- Every result of `product_remove` has one of three shapes: rejected
before any mutation (state unchanged, empty trace, no notification),
committed without a notification, or committed and then notified
exactly once. -/
theorem product_remove_shape (d : DB) (pid : Nat) (a : Int) (note : String)
    (env : Env) (t : Bool) (r : RemoveResult)
    (h : product_remove d pid a note env t = some r) :
    (r.db = d ∧ r.notifyCalls = 0 ∧ r.events = []) ∨
    (r.notifyCalls = 0 ∧ r.events = [Event.commit]) ∨
    (r.notifyCalls = 1 ∧ r.events = [Event.commit, Event.notifyAttempt]) := by
  simp only [product_remove] at h
  repeat' split at h
  case' h_1 => cases h
  all_goals injection h with h
  all_goals subst h
  all_goals
    first
    | exact Or.inl ⟨rfl, rfl, rfl⟩
    | exact Or.inr (Or.inl ⟨rfl, rfl⟩)
    | exact Or.inr (Or.inr ⟨rfl, rfl⟩)

/-- The database produced by `product_remove` does not depend on the
SMTP environment or on the transport behaviour: the commit happens
before (and regardless of) the notification attempt. -/
theorem product_remove_db_indep (d : DB) (pid : Nat) (a : Int) (note : String)
    (env1 env2 : Env) (t1 t2 : Bool) :
    (product_remove d pid a note env1 t1).map RemoveResult.db =
    (product_remove d pid a note env2 t2).map RemoveResult.db := by
  simp only [product_remove]
  repeat' split
  all_goals rfl

/-! ## Claim theorems -/

/-- C2: a product is classified LOW exactly when
`quantity < min_threshold` (quantity equal to the threshold is OK), and
this same strict comparison is the one used by the listing view, the
report view, and the CSV, PDF and XLSX exports. -/
theorem c2_status_strict_less_than_shared (p : Product) (ps : List Product) :
    (csvStatus p = "LOW" ↔ p.quantity < p.min_threshold) ∧
    (csvStatus p = "OK" ↔ p.min_threshold ≤ p.quantity) ∧
    (pdfStatus p = csvStatus p ∧ xlsxStatus p = csvStatus p) ∧
    (p ∈ indexLowList ps ↔ p ∈ ps ∧ p.quantity < p.min_threshold) ∧
    (p ∈ reportLowList ps ↔ p ∈ ps ∧ p.quantity < p.min_threshold) ∧
    indexLowList ps = reportLowList ps := by
  by_cases h : p.quantity < p.min_threshold <;>
    simp [csvStatus, pdfStatus, xlsxStatus, indexLowList, reportLowList, h,
      not_lt.mp, List.mem_filter, not_lt.mpr, le_of_not_lt, not_le.mpr,
      (by decide : ("OK" : String) ≠ "LOW"), (by decide : ("LOW" : String) ≠ "OK"),
      not_lt, le_of_lt]

/-- C3: with a positive amount, Add increases the product's quantity by
exactly that amount, appends exactly one movement with delta `+amount`,
and performs no notifier invocation; with a non-positive amount it
fails as InvalidAmount and neither the product nor the ledger changes. -/
theorem c3_product_add_contract (d : DB) (pid : Nat) (a : Int) (note : String)
    (p : Product) (hp : findProduct d pid = some p) :
    (0 < a →
      ∃ r, product_add d pid a note = some r ∧
        r.outcome = AddOutcome.added ∧
        findProduct r.db pid = some { p with quantity := p.quantity + a } ∧
        r.db.movements = d.movements ++ [⟨d.nextMovementId, p.id, a, note⟩] ∧
        r.notifyCalls = 0) ∧
    (a ≤ 0 →
      product_add d pid a note =
        some { db := d, outcome := AddOutcome.invalidAmount, notifyCalls := 0 }) := by
  constructor
  · intro ha
    have hna : ¬ a ≤ 0 := not_le.mpr ha
    simp only [product_add, hp, if_neg hna]
    exact ⟨_, rfl, rfl,
      findProduct_updateProduct d pid p { p with quantity := p.quantity + a } hp rfl,
      rfl, rfl⟩
  · intro ha
    simp only [product_add, hp, if_pos ha]

/-- Witness for C3: adding 4 units of product 1 of the sample registry
yields quantity 9, movement `+4`, no notification. -/
theorem c3_product_add_contract_witness :
    ∃ r, product_add sampleDB 1 4 "restock" = some r ∧
      r.outcome = AddOutcome.added ∧
      findProduct r.db 1 = some ⟨1, "A1", "Widget", 9, 3, false⟩ ∧
      r.db.movements = [⟨1, 1, 4, "restock"⟩] ∧
      r.notifyCalls = 0 :=
  (c3_product_add_contract sampleDB 1 4 "restock" ⟨1, "A1", "Widget", 5, 3, false⟩
      rfl).1 (by decide)

/-- C4: with `allow_negative` off and a positive amount larger than the
current quantity, Remove is rejected as NegativeStockDenied and the
database (product quantities and movement ledger) is returned exactly
unchanged, with no commit and no notification. -/
theorem c4_remove_negative_denied (d : DB) (pid : Nat) (a : Int) (note : String)
    (env : Env) (t : Bool) (p : Product)
    (hp : findProduct d pid = some p)
    (hneg : p.allow_negative = false) (ha : 0 < a) (hgt : p.quantity < a) :
    product_remove d pid a note env t =
      some { db := d, outcome := RemoveOutcome.negativeStockDenied,
             notifyCalls := 0, events := [] } := by
  have hna : ¬ a ≤ 0 := not_le.mpr ha
  simp only [product_remove, hp, if_neg hna, if_pos (And.intro hneg hgt)]

/-- Witness for C4: removing 10 from product 1 (quantity 5, negative
stock not allowed) of the sample registry is denied and changes
nothing. -/
theorem c4_remove_negative_denied_witness :
    product_remove sampleDB 1 10 "too many" emptyEnv true =
      some { db := sampleDB, outcome := RemoveOutcome.negativeStockDenied,
             notifyCalls := 0, events := [] } :=
  c4_remove_negative_denied sampleDB 1 10 "too many" emptyEnv true
    ⟨1, "A1", "Widget", 5, 3, false⟩ rfl rfl (by decide) (by decide)

/-- C5: with `allow_negative` on and any positive amount, Remove always
commits regardless of the sign of the resulting quantity: it is not
rejected, the quantity decreases by exactly the amount, and exactly one
movement with delta `-amount` is appended. -/
theorem c5_remove_allow_negative (d : DB) (pid : Nat) (a : Int) (note : String)
    (env : Env) (t : Bool) (p : Product)
    (hp : findProduct d pid = some p)
    (hallow : p.allow_negative = true) (ha : 0 < a) :
    ∃ r, product_remove d pid a note env t = some r ∧
      r.outcome ≠ RemoveOutcome.invalidAmount ∧
      r.outcome ≠ RemoveOutcome.negativeStockDenied ∧
      findProduct r.db pid = some { p with quantity := p.quantity - a } ∧
      r.db.movements = d.movements ++ [⟨d.nextMovementId, p.id, -a, note⟩] := by
  have hna : ¬ a ≤ 0 := not_le.mpr ha
  have hpol : ¬ (p.allow_negative = false ∧ a > p.quantity) := by
    rintro ⟨hf, -⟩
    rw [hallow] at hf
    cases hf
  have hfind := findProduct_updateProduct d pid p
    { p with quantity := p.quantity - a } hp rfl
  simp only [product_remove, hp, if_neg hna, if_neg hpol]
  split
  · split <;> refine ⟨_, rfl, ?_, ?_, hfind, rfl⟩ <;> (intro hco; cases hco)
  · refine ⟨_, rfl, ?_, ?_, hfind, rfl⟩ <;> (intro hco; cases hco)

/-- Witness for C5: removing 15 from product 2 (quantity 10, negative
stock allowed) commits and drives the quantity to -5. -/
theorem c5_remove_allow_negative_witness :
    ∃ r, product_remove sampleDB 2 15 "drain" emptyEnv true = some r ∧
      r.outcome ≠ RemoveOutcome.invalidAmount ∧
      r.outcome ≠ RemoveOutcome.negativeStockDenied ∧
      findProduct r.db 2 = some ⟨2, "B2", "Gadget", -5, 3, true⟩ ∧
      r.db.movements = [⟨1, 2, -15, "drain"⟩] :=
  c5_remove_allow_negative sampleDB 2 15 "drain" emptyEnv true
    ⟨2, "B2", "Gadget", 10, 3, true⟩ rfl rfl (by decide)

/-- C6: a Remove whose resulting quantity falls strictly below the
threshold triggers exactly one notifier invocation (in particular every
Remove crossing from at-or-above the threshold to below it), a Remove
whose resulting quantity stays at or above the threshold triggers zero,
and no add or remove operation ever performs more than one notifier
invocation. -/
theorem c6_notify_exactly_once (d : DB) (pid : Nat) (a : Int) (note : String)
    (env : Env) (t : Bool) (p : Product)
    (hp : findProduct d pid = some p) (ha : 0 < a)
    (hpol : ¬ (p.allow_negative = false ∧ a > p.quantity)) :
    (∃ r, product_remove d pid a note env t = some r ∧
      ((p.min_threshold ≤ p.quantity → p.quantity - a < p.min_threshold →
          r.notifyCalls = 1) ∧
       (p.min_threshold ≤ p.quantity - a → r.notifyCalls = 0))) ∧
    (∀ r2, product_remove d pid a note env t = some r2 → r2.notifyCalls ≤ 1) ∧
    (∀ r3, product_add d pid a note = some r3 → r3.notifyCalls = 0) := by
  have hna : ¬ a ≤ 0 := not_le.mpr ha
  refine ⟨?_, ?_, ?_⟩
  · simp only [product_remove, hp, if_neg hna, if_neg hpol]
    split
    · rename_i hlow
      split <;>
        exact ⟨_, rfl, fun _ _ => rfl, fun hge => absurd hlow (not_lt.mpr hge)⟩
    · rename_i hnlow
      exact ⟨_, rfl, fun _ hlt => absurd hlt hnlow, fun _ => rfl⟩
  · intro r2 h2
    rcases product_remove_shape d pid a note env t r2 h2 with
      ⟨-, h, -⟩ | ⟨h, -⟩ | ⟨h, -⟩ <;> omega
  · intro r3 h3
    simp only [product_add, hp] at h3
    split at h3 <;> (injection h3 with h3; subst h3; rfl)

/-- Witness for C6: removing 3 from product 1 (quantity 5, threshold 3,
policy check passing) crosses below the threshold, so the notifier runs
exactly once. -/
theorem c6_notify_exactly_once_witness :
    ∃ r, product_remove sampleDB 1 3 "ship" emptyEnv true = some r ∧
      (((3 : Int) ≤ 5 → (5 : Int) - 3 < 3 → r.notifyCalls = 1) ∧
       ((3 : Int) ≤ 5 - 3 → r.notifyCalls = 0)) :=
  (c6_notify_exactly_once sampleDB 1 3 "ship" emptyEnv true
      ⟨1, "A1", "Widget", 5, 3, false⟩ rfl (by decide) (by decide)).1

/-- C7: any trace of Remove shows a notification attempt only after the
commit (the only trace shapes are empty, commit alone, and commit then
notify), and the committed database does not depend on the notifier's
configuration or transport behaviour — a notifier failure or exception
never rolls back or prevents the inventory state change. -/
theorem c7_commit_before_notify (d : DB) (pid : Nat) (a : Int) (note : String)
    (env env2 : Env) (t t2 : Bool) (r : RemoveResult)
    (h : product_remove d pid a note env t = some r) :
    (r.events = [] ∨ r.events = [Event.commit] ∨
      r.events = [Event.commit, Event.notifyAttempt]) ∧
    (product_remove d pid a note env t).map RemoveResult.db =
      (product_remove d pid a note env2 t2).map RemoveResult.db := by
  refine ⟨?_, product_remove_db_indep d pid a note env env2 t t2⟩
  rcases product_remove_shape d pid a note env t r h with
    ⟨-, -, he⟩ | ⟨-, he⟩ | ⟨-, he⟩
  · exact Or.inl he
  · exact Or.inr (Or.inl he)
  · exact Or.inr (Or.inr he)

/-- Witness for C7: a remove that crosses the threshold under a fully
configured SMTP environment with a failing transport still commits, and
commits the same database as under an unconfigured environment with a
working transport. -/
theorem c7_commit_before_notify_witness :
    (([Event.commit, Event.notifyAttempt] : List Event) = [] ∨
     ([Event.commit, Event.notifyAttempt] : List Event) = [Event.commit] ∨
     ([Event.commit, Event.notifyAttempt] : List Event) =
       [Event.commit, Event.notifyAttempt]) ∧
    (product_remove sampleDB 1 3 "x" fullEnv false).map RemoveResult.db =
      (product_remove sampleDB 1 3 "x" emptyEnv true).map RemoveResult.db :=
  c7_commit_before_notify sampleDB 1 3 "x" fullEnv emptyEnv false true
    ⟨⟨[⟨1, "A1", "Widget", 2, 3, false⟩, ⟨2, "B2", "Gadget", 10, 3, true⟩],
      [⟨1, 1, -3, "x"⟩], 2⟩, RemoveOutcome.notifierExn "SMTPException", 1,
      [Event.commit, Event.notifyAttempt]⟩ (by decide)

/-- C1 counterexample: under a complete SMTP configuration with a
failing transport, a Remove that commits and crosses the threshold ends
in an uncaught notifier exception that propagates to the caller — the
notifier outcome is not always a mere informational status. -/
theorem c1_notifier_raises_counterexample :
    (product_remove sampleDB 1 3 "" fullEnv false).map RemoveResult.outcome =
      some (RemoveOutcome.notifierExn "SMTPException") := by decide

/-- C1 (amended): the committed database never depends on the notifier
configuration or transport; with a parseable port, an incomplete
configuration makes the notifier return False without raising (the
informational not-sent status), while a complete configuration with a
failing transport makes it raise, and that exception propagates out of
the Remove handler. -/
theorem c1_notifier_contract (env : Env) (t : Bool) (p : Product)
    (d : DB) (pid : Nat) (a : Int) (note : String) (env2 : Env) (t2 : Bool)
    (hport : (pyInt? (env.SMTP_PORT.getD "587")).isSome = true) :
    (smtpConfigComplete env = false →
      send_low_stock_email env t p = PyResult.ok false) ∧
    (smtpConfigComplete env = true →
      send_low_stock_email env false p = PyResult.exn "SMTPException") ∧
    (product_remove d pid a note env t).map RemoveResult.db =
      (product_remove d pid a note env2 t2).map RemoveResult.db := by
  refine ⟨?_, ?_, product_remove_db_indep d pid a note env env2 t t2⟩
  · intro hcfg
    cases hpv : pyInt? (env.SMTP_PORT.getD "587") with
    | none => rw [hpv] at hport; cases hport
    | some k => simp [send_low_stock_email, hpv, hcfg]
  · intro hcfg
    cases hpv : pyInt? (env.SMTP_PORT.getD "587") with
    | none => rw [hpv] at hport; cases hport
    | some k => simp [send_low_stock_email, hpv, hcfg]

/-- Witness for C1 (amended): the fresh-deployment environment has an
incomplete configuration, the notifier quietly returns False, and a
concrete Remove commits the same database no matter what environment
and transport the notifier sees. -/
theorem c1_notifier_contract_witness :
    (smtpConfigComplete emptyEnv = false →
      send_low_stock_email emptyEnv true ⟨1, "A1", "Widget", 2, 3, true⟩ =
        PyResult.ok false) ∧
    (smtpConfigComplete emptyEnv = true →
      send_low_stock_email emptyEnv false ⟨1, "A1", "Widget", 2, 3, true⟩ =
        PyResult.exn "SMTPException") ∧
    (product_remove sampleDB 2 9 "w" emptyEnv true).map RemoveResult.db =
      (product_remove sampleDB 2 9 "w" fullEnv false).map RemoveResult.db :=
  c1_notifier_contract emptyEnv true ⟨1, "A1", "Widget", 2, 3, true⟩
    sampleDB 2 9 "w" fullEnv false (by decide)

/-- C8 counterexample: editing product 2's SKU to the already-used
`"A1"` is not rejected with the graceful DuplicateSKU outcome the
create path uses — the edit handler runs no SKU check, and the commit
dies with an uncaught database IntegrityError instead. -/
theorem c8_edit_no_dup_check_counterexample :
    (product_edit sampleDB 2 "A1" "Gadget" 10 3 none).2 ≠ RegOutcome.dupSku ∧
    (product_edit sampleDB 2 "A1" "Gadget" 10 3 none).2 =
      RegOutcome.integrityError := by decide

/-- C8 (amended): creation enforces SKU uniqueness with an explicit
application-level check and a graceful DuplicateSKU rejection leaving
the registry unchanged; the edit handler performs no such check — an
edit that would duplicate a SKU is stopped only by the database unique
constraint, surfacing as an uncaught IntegrityError (registry still
unchanged), not as a DuplicateSKU result. -/
theorem c8_sku_uniqueness_enforcement (d : DB) (nextPid : Nat)
    (sku name : String) (qty thr : Int) (f : Option String)
    (pid : Nat) (p : Product)
    (hdup : d.products.any (fun q => q.sku == sku) = true)
    (hp : findProduct d pid = some p)
    (hdup2 : skuDup (updateProduct d
      { p with sku := sku, name := name, quantity := qty
               min_threshold := max 0 thr
               allow_negative := _get_bool f p.allow_negative }).products = true) :
    product_new d nextPid sku name qty thr f = (d, RegOutcome.dupSku) ∧
    product_edit d pid sku name qty thr f = (d, RegOutcome.integrityError) := by
  constructor
  · simp [product_new, hdup]
  · simp [product_edit, hp, hdup2]

/-- Witness for C8 (amended): creating a second `"A1"` is gracefully
rejected; editing product 2 to `"A1"` hits the constraint error. -/
theorem c8_sku_uniqueness_enforcement_witness :
    product_new sampleDB 3 "A1" "Another" 0 3 none =
      (sampleDB, RegOutcome.dupSku) ∧
    product_edit sampleDB 2 "A1" "Another" 0 3 none =
      (sampleDB, RegOutcome.integrityError) :=
  c8_sku_uniqueness_enforcement sampleDB 3 "A1" "Another" 0 3 none 2
    ⟨2, "B2", "Gadget", 10, 3, true⟩ (by decide) (by decide) (by decide)

/-- C9 counterexample: deleting product 1, which owns a movement, does
not delete that movement — the commit fails with an uncaught
IntegrityError (no delete cascade is configured, and nulling the
movement's product reference violates NOT NULL), so the movement is
still stored and still references product 1 after the delete attempt. -/
theorem c9_delete_no_cascade_counterexample :
    (product_delete dbWithMovement 1).1.movements.filter
        (fun m => m.product_id == 1) ≠ [] ∧
    (product_delete dbWithMovement 1).2 = RegOutcome.integrityError := by decide

/-- C9 (amended): deleting a product with no movements removes it; for
a product owning at least one movement the delete fails with an
uncaught IntegrityError and both the product and all its movements
remain exactly as they were — deletion never cascades to movements. -/
theorem c9_delete_contract (d : DB) (pid : Nat) (p : Product)
    (hp : findProduct d pid = some p) :
    (d.movements.any (fun m => m.product_id == p.id) = true →
      product_delete d pid = (d, RegOutcome.integrityError)) ∧
    (d.movements.any (fun m => m.product_id == p.id) = false →
      product_delete d pid =
        ({ d with products := d.products.filter (fun q => q.id != pid) },
         RegOutcome.deleted)) := by
  constructor
  · intro hmv
    simp [product_delete, hp, hmv]
  · intro hmv
    simp [product_delete, hp, hmv]

/-- Witness for C9 (amended): product 1 of `dbWithMovement` owns a
movement, so its deletion fails and changes nothing. -/
theorem c9_delete_contract_witness :
    product_delete dbWithMovement 1 = (dbWithMovement, RegOutcome.integrityError) :=
  (c9_delete_contract dbWithMovement 1 ⟨1, "A1", "Widget", 5, 3, true⟩ rfl).1
    (by decide)

/-- C10: a creation request that omits the `allow_negative` form field
creates the product with `allow_negative = true` — negative stock is
permitted by default (`_get_bool("allow_negative", True)` at app.py
line 170, matching the column default of line 64) unless the caller
explicitly disables it. -/
theorem c10_allow_negative_defaults_true (d : DB) (nextPid : Nat)
    (sku name : String) (qty thr : Int)
    (hnew : d.products.any (fun p => p.sku == sku) = false) :
    product_new d nextPid sku name qty thr none =
      ({ d with products :=
          d.products ++ [⟨nextPid, sku, name, qty, max 0 thr, true⟩] },
       RegOutcome.created) := by
  simp [product_new, hnew, _get_bool]

/-- Witness for C10: creating `"C3"` with no `allow_negative` field
yields a product that allows negative stock. -/
theorem c10_allow_negative_defaults_true_witness :
    product_new sampleDB 3 "C3" "Cog" 0 4 none =
      ({ sampleDB with products :=
          sampleDB.products ++ [⟨3, "C3", "Cog", 0, 4, true⟩] },
       RegOutcome.created) :=
  c10_allow_negative_defaults_true sampleDB 3 "C3" "Cog" 0 4 (by decide)
